import Mathlib

/-
Verification of the qsharp-core Python client of microsoft/iqsharp.

This file gives a shallow embedding of:
  * qsharp/serialization.py      (map_tuples, unmap_tuples)
  * qsharp/clients/iqsharp.py    (IQSharpClient: the _execute dispatch flow,
                                  _handle_message, _get_qsharp_data,
                                  capture_diagnostics, is_ready,
                                  and the display-data handler wiring)
and proves properties of these embeddings.
-/

namespace IQSharp

/-! ## Python values

A JSON-serializable Python value as handled by serialization.py.  The numpy
branches of map_tuples are not modelled (numpy may be absent, and no claim
involves numpy values); floats are likewise omitted.  Dictionaries are
association lists of string keys, in insertion order, mirroring a Python dict
that was produced by json.loads. -/

inductive Py where
  | none
  | bool (b : Bool)
  | int (n : Int)
  | str (s : String)
  | tuple (items : List Py)
  | list (items : List Py)
  | dict (entries : List (String × Py))
deriving Repr

/-- Python truthiness of a value, as used by `if x:` and `x or y`. -/
def truthy : Py → Bool
  | .none => false
  | .bool b => b
  | .int n => n != 0
  | .str s => !(s == "")
  | .tuple xs => !xs.isEmpty
  | .list xs => !xs.isEmpty
  | .dict kvs => !kvs.isEmpty

/-! ## serialization.py: map_tuples -/

/-- The key string produced by the f-string `f"Item{i}"` in the source. -/
def itemKey (i : Nat) : String := "Item" ++ toString i

/-- The entries `ItemK` produced by the encoding loop of map_tuples,
starting at index i. -/
def itemEntries : List Py → Nat → List (String × Py)
  | [], _ => []
  | w :: ws, i => (itemKey i, w) :: itemEntries ws (i + 1)

/-- Builds the dictionary for a tuple whose elements have already been mapped.
Source (map_tuples, tuple branch): a dict with key `@type` set to `tuple`,
keys Item1..Item7 for the first min(len, 7) elements, and, when there are more
than 7 elements, a key `Rest` holding the encoding of the remaining elements.
The 8-element match pattern below is the `len(obj) > max_tuple_length` test of
the source. -/
def chunkTuple : List Py → Py
  | w1 :: w2 :: w3 :: w4 :: w5 :: w6 :: w7 :: w8 :: rest =>
      .dict ((("@type", .str "tuple") :: itemEntries [w1, w2, w3, w4, w5, w6, w7] 1)
        ++ [("Rest", chunkTuple (w8 :: rest))])
  | ws => .dict (("@type", .str "tuple") :: itemEntries ws 1)

mutual
/-- Embedding of serialization.map_tuples: converts every tuple to a
dictionary of the form expected by the Q# backend, recursing into tuples,
lists and dictionary values, and leaving other values unchanged. -/
def map_tuples : Py → Py
  | .tuple items => chunkTuple (mapList items)
  | .list xs => .list (mapList xs)
  | .dict kvs => .dict (mapEntries kvs)
  | .none => .none
  | .bool b => .bool b
  | .int n => .int n
  | .str s => .str s

/-- map_tuples applied to each element of a list (the list branch). -/
def mapList : List Py → List Py
  | [] => []
  | x :: xs => map_tuples x :: mapList xs

/-- map_tuples applied to each value of a dict (the dict branch). -/
def mapEntries : List (String × Py) → List (String × Py)
  | [] => []
  | (k, v) :: kvs => (k, map_tuples v) :: mapEntries kvs
end

/-! ## serialization.py: unmap_tuples -/

/-- The membership test `obj.get('@type', None) in ('tuple', '@tuple')`:
true exactly when the looked-up value is the string `tuple` or `@tuple`. -/
def tupleMarkerVal : Option Py → Bool
  | some (.str s) => s == "tuple" || s == "@tuple"
  | _ => false

/-- Source test deciding whether a dict represents a tuple:
`obj.get('@type', None) in ('tuple', '@tuple') or 'Item1' in obj`. -/
def isTupleDict (kvs : List (String × Py)) : Bool :=
  tupleMarkerVal (kvs.lookup "@type") || (kvs.lookup "Item1").isSome

theorem sizeOf_lookup {kvs : List (String × Py)} {k : String} {v : Py}
    (h : kvs.lookup k = some v) : sizeOf v < sizeOf kvs := by
  induction kvs with
  | nil => simp [List.lookup] at h
  | cons p rest ih =>
    rw [List.lookup] at h
    split at h
    · cases h
      cases p
      simp
      omega
    · have := ih h
      cases p
      simp
      omega

mutual
/-- Embedding of serialization.unmap_tuples: converts dictionaries that
represent tuples back to tuples, recursing into lists and dict values and
leaving every other value (including an actual tuple, which cannot occur in
JSON-decoded input) unchanged. -/
def unmap_tuples : Py → Py
  | .dict kvs =>
    if isTupleDict kvs then .tuple (collectItems kvs kvs.length 1)
    else .dict (unmapEntries kvs)
  | .list xs => .list (unmapList xs)
  | .none => .none
  | .bool b => .bool b
  | .int n => .int n
  | .str s => .str s
  | .tuple xs => .tuple xs
termination_by p => (sizeOf p, 0)

/-- unmap_tuples applied to each element of a list. -/
def unmapList : List Py → List Py
  | [] => []
  | x :: xs => unmap_tuples x :: unmapList xs
termination_by xs => (sizeOf xs, 0)

/-- unmap_tuples applied to each value of a plain dict. -/
def unmapEntries : List (String × Py) → List (String × Py)
  | [] => []
  | (k, v) :: kvs => (k, unmap_tuples v) :: unmapEntries kvs
termination_by kvs => (sizeOf kvs, 0)

/-- The `while True` item-collection loop of unmap_tuples: starting at index
i, look up ItemK, unmap and append while the key is present, and stop at the
first missing key.  The key `Rest` is never consulted, exactly as in the
source.  The Python loop needs no fuel; it stops because a dict has finitely
many distinct keys, so a fuel of kvs.length (an upper bound on the number of
distinct ItemK keys present) makes the embedding total without changing the
collected list. -/
def collectItems (kvs : List (String × Py)) : Nat → Nat → List Py
  | 0, _ => []
  | fuel + 1, i =>
    match h : kvs.lookup (itemKey i) with
    | some v => unmap_tuples v :: collectItems kvs fuel (i + 1)
    | none => []
termination_by fuel _ => (sizeOf kvs, fuel + 1)
decreasing_by
  · exact Prod.Lex.left _ _ (sizeOf_lookup h)
  · exact Prod.Lex.right _ (Nat.lt_succ_self _)
end

/-! ## Round-trip machinery

The round trip decode(encode(t)) = t only holds for values whose tuples all
have at most 7 elements (the encoder nests longer tuples under `Rest`, which
the decoder never reads) and whose dicts do not themselves look like tuple
encodings (such a dict would be decoded to a tuple). -/

mutual
/-- All tuples reachable in the value have length at most 7, and no reachable
dict passes the tuple-recognition test of unmap_tuples. -/
def roundOk : Py → Bool
  | .tuple items => decide (items.length ≤ 7) && roundOkList items
  | .list xs => roundOkList xs
  | .dict kvs => !isTupleDict kvs && roundOkEntries kvs
  | .none => true
  | .bool _ => true
  | .int _ => true
  | .str _ => true

/-- roundOk for every element of a list. -/
def roundOkList : List Py → Bool
  | [] => true
  | x :: xs => roundOk x && roundOkList xs

/-- roundOk for every value of a dict. -/
def roundOkEntries : List (String × Py) → Bool
  | [] => true
  | (_, v) :: kvs => roundOk v && roundOkEntries kvs
end

/-- Structural induction principle for Py with membership hypotheses for the
nested lists. -/
theorem Py.inductionOn {P : Py → Prop}
    (hnone : P .none) (hbool : ∀ b, P (.bool b)) (hint : ∀ n, P (.int n))
    (hstr : ∀ s, P (.str s))
    (htuple : ∀ xs, (∀ x ∈ xs, P x) → P (.tuple xs))
    (hlist : ∀ xs, (∀ x ∈ xs, P x) → P (.list xs))
    (hdict : ∀ kvs, (∀ q ∈ kvs, P (Prod.snd q)) → P (.dict kvs)) :
    ∀ p, P p
  | .none => hnone
  | .bool b => hbool b
  | .int n => hint n
  | .str s => hstr s
  | .tuple xs => htuple xs (fun x hx =>
      Py.inductionOn hnone hbool hint hstr htuple hlist hdict x)
  | .list xs => hlist xs (fun x hx =>
      Py.inductionOn hnone hbool hint hstr htuple hlist hdict x)
  | .dict kvs => hdict kvs (fun q hq =>
      Py.inductionOn hnone hbool hint hstr htuple hlist hdict q.2)
termination_by p => sizeOf p
decreasing_by
  · have h1 := List.sizeOf_lt_of_mem hx
    simp
    omega
  · have h1 := List.sizeOf_lt_of_mem hx
    simp
    omega
  · have h1 := List.sizeOf_lt_of_mem hq
    obtain ⟨a, v⟩ := q
    simp at h1 ⊢
    omega

theorem mapList_length (xs : List Py) : (mapList xs).length = xs.length := by
  induction xs with
  | nil => rfl
  | cons x xs ih => simp [mapList, ih]

theorem itemEntries_length (ws : List Py) (i : Nat) :
    (itemEntries ws i).length = ws.length := by
  induction ws generalizing i with
  | nil => rfl
  | cons w ws ih => simp [itemEntries, ih]

theorem lookup_mapEntries (kvs : List (String × Py)) (k : String) :
    (mapEntries kvs).lookup k = (kvs.lookup k).map map_tuples := by
  induction kvs with
  | nil => simp [mapEntries]
  | cons p rest ih =>
    obtain ⟨a, v⟩ := p
    simp only [mapEntries, List.lookup]
    split <;> simp [ih]

theorem chunkTuple_isDict (ws : List Py) : ∃ es, chunkTuple ws = .dict es := by
  unfold chunkTuple
  split
  · exact ⟨_, rfl⟩
  · exact ⟨_, rfl⟩

theorem chunkTuple_small (ws : List Py) (hw : ws.length ≤ 7) :
    chunkTuple ws = .dict (("@type", .str "tuple") :: itemEntries ws 1) := by
  unfold chunkTuple
  split
  · simp at hw
  · rfl

theorem tupleMarkerVal_map (o : Option Py) :
    tupleMarkerVal (o.map map_tuples) = tupleMarkerVal o := by
  cases o with
  | none => rfl
  | some v =>
    cases v
    case tuple items =>
      obtain ⟨es, he⟩ := chunkTuple_isDict (mapList items)
      show tupleMarkerVal (some (chunkTuple (mapList items))) = false
      rw [he]
      rfl
    all_goals rfl

theorem isTupleDict_mapEntries (kvs : List (String × Py)) :
    isTupleDict (mapEntries kvs) = isTupleDict kvs := by
  unfold isTupleDict
  rw [lookup_mapEntries, lookup_mapEntries, tupleMarkerVal_map]
  simp

theorem roundOkList_mem : ∀ {xs : List Py}, roundOkList xs = true →
    ∀ x ∈ xs, roundOk x = true := by
  intro xs
  induction xs with
  | nil => intro h x hx; simp at hx
  | cons y ys ih =>
    intro h x hx
    simp only [roundOkList, Bool.and_eq_true] at h
    rcases List.mem_cons.mp hx with hx2 | hx2
    · subst hx2; exact h.1
    · exact ih h.2 x hx2

theorem roundOkEntries_mem : ∀ {kvs : List (String × Py)}, roundOkEntries kvs = true →
    ∀ q ∈ kvs, roundOk q.2 = true := by
  intro kvs
  induction kvs with
  | nil => intro h q hq; simp at hq
  | cons p ps ih =>
    obtain ⟨a, v⟩ := p
    intro h q hq
    simp only [roundOkEntries, Bool.and_eq_true] at h
    rcases List.mem_cons.mp hq with hq2 | hq2
    · subst hq2; exact h.1
    · exact ih h.2 q hq2

theorem unmapList_mapList : ∀ {xs : List Py},
    (∀ x ∈ xs, unmap_tuples (map_tuples x) = x) →
    unmapList (mapList xs) = xs := by
  intro xs
  induction xs with
  | nil => intro _; simp [mapList, unmapList]
  | cons y ys ih =>
    intro h
    simp only [mapList, unmapList]
    rw [h y (by simp), ih (fun x hx => h x (by simp [hx]))]

theorem unmapEntries_mapEntries : ∀ {kvs : List (String × Py)},
    (∀ q ∈ kvs, unmap_tuples (map_tuples q.2) = q.2) →
    unmapEntries (mapEntries kvs) = kvs := by
  intro kvs
  induction kvs with
  | nil => intro _; simp [mapEntries, unmapEntries]
  | cons p ps ih =>
    obtain ⟨a, v⟩ := p
    intro h
    simp only [mapEntries, unmapEntries]
    rw [h (a, v) (by simp), ih (fun q hq => h q (by simp [hq]))]

theorem itemKey_1 : itemKey 1 = "Item1" := rfl
theorem itemKey_2 : itemKey 2 = "Item2" := rfl
theorem itemKey_3 : itemKey 3 = "Item3" := rfl
theorem itemKey_4 : itemKey 4 = "Item4" := rfl
theorem itemKey_5 : itemKey 5 = "Item5" := rfl
theorem itemKey_6 : itemKey 6 = "Item6" := rfl
theorem itemKey_7 : itemKey 7 = "Item7" := rfl
theorem itemKey_8 : itemKey 8 = "Item8" := rfl

/-- For a tuple-encoding dict with at most 7 items, the collection loop of
unmap_tuples recovers exactly the unmapped item values, in order. -/
theorem collect_small (m : Py) (ws : List Py) (hw : ws.length ≤ 7) :
    collectItems (("@type", m) :: itemEntries ws 1) (ws.length + 1) 1
      = unmapList ws := by
  match ws with
  | [] =>
    simp [collectItems, itemEntries, List.lookup, itemKey_1, unmapList]
  | [a] =>
    simp [collectItems, itemEntries, List.lookup, itemKey_1, itemKey_2, unmapList]
  | [a, b] =>
    simp [collectItems, itemEntries, List.lookup, itemKey_1, itemKey_2, itemKey_3, unmapList]
  | [a, b, c] =>
    simp [collectItems, itemEntries, List.lookup, itemKey_1, itemKey_2, itemKey_3,
      itemKey_4, unmapList]
  | [a, b, c, d] =>
    simp [collectItems, itemEntries, List.lookup, itemKey_1, itemKey_2, itemKey_3,
      itemKey_4, itemKey_5, unmapList]
  | [a, b, c, d, e] =>
    simp [collectItems, itemEntries, List.lookup, itemKey_1, itemKey_2, itemKey_3,
      itemKey_4, itemKey_5, itemKey_6, unmapList]
  | [a, b, c, d, e, f] =>
    simp [collectItems, itemEntries, List.lookup, itemKey_1, itemKey_2, itemKey_3,
      itemKey_4, itemKey_5, itemKey_6, itemKey_7, unmapList]
  | [a, b, c, d, e, f, g] =>
    simp [collectItems, itemEntries, List.lookup, itemKey_1, itemKey_2, itemKey_3,
      itemKey_4, itemKey_5, itemKey_6, itemKey_7, itemKey_8, unmapList]
  | _ :: _ :: _ :: _ :: _ :: _ :: _ :: _ :: _ =>
    simp at hw

/-- Round trip of serialization: decoding the encoding is the identity on
every value satisfying roundOk. -/
theorem roundTrip (p : Py) (h : roundOk p = true) :
    unmap_tuples (map_tuples p) = p := by
  revert h
  induction p using Py.inductionOn with
  | hnone => intro h; simp [map_tuples, unmap_tuples]
  | hbool => intro h; simp [map_tuples, unmap_tuples]
  | hint => intro h; simp [map_tuples, unmap_tuples]
  | hstr => intro h; simp [map_tuples, unmap_tuples]
  | htuple xs ih =>
    intro h
    simp only [roundOk, Bool.and_eq_true, decide_eq_true_eq] at h
    have hlen : (mapList xs).length ≤ 7 := by rw [mapList_length]; exact h.1
    rw [show map_tuples (.tuple xs) = chunkTuple (mapList xs) from rfl,
      chunkTuple_small _ hlen]
    rw [unmap_tuples]
    have htd : isTupleDict (("@type", Py.str "tuple") :: itemEntries (mapList xs) 1)
        = true := by
      simp [isTupleDict, List.lookup, tupleMarkerVal]
    rw [if_pos htd]
    have hlen2 : (("@type", Py.str "tuple") :: itemEntries (mapList xs) 1).length
        = (mapList xs).length + 1 := by
      simp [itemEntries_length]
    rw [hlen2, collect_small _ _ hlen,
      unmapList_mapList (fun x hx => ih x hx (roundOkList_mem h.2 x hx))]
  | hlist xs ih =>
    intro h
    simp only [roundOk] at h
    rw [show map_tuples (.list xs) = .list (mapList xs) from rfl]
    rw [unmap_tuples]
    rw [unmapList_mapList (fun x hx => ih x hx (roundOkList_mem h x hx))]
  | hdict kvs ih =>
    intro h
    simp only [roundOk, Bool.and_eq_true, Bool.not_eq_eq_eq_not, Bool.not_true] at h
    rw [show map_tuples (.dict kvs) = .dict (mapEntries kvs) from rfl]
    rw [unmap_tuples, isTupleDict_mapEntries]
    rw [if_neg (by simp [h.1])]
    rw [unmapEntries_mapEntries (fun q hq => ih q hq (roundOkEntries_mem h.2 q hq))]

/-- Every position of the list produced by the collection loop corresponds to
a present ItemK key: the loop only appends while the key at the current index
is found. -/
theorem collectItems_lookup {kvs : List (String × Py)} :
    ∀ fuel i j, j < (collectItems kvs fuel i).length →
      (kvs.lookup (itemKey (i + j))).isSome := by
  intro fuel
  induction fuel with
  | zero => intro i j hj; simp [collectItems] at hj
  | succ fuel ih =>
    intro i j hj
    rw [collectItems] at hj
    split at hj
    · rename_i v hv
      simp only [List.length_cons] at hj
      cases j with
      | zero => simp [hv]
      | succ j2 =>
        have h2 := ih (i + 1) j2 (by omega)
        rw [show i + (j2 + 1) = i + 1 + j2 by omega]
        exact h2
    · simp at hj

/-! ## clients/iqsharp.py: the _execute dispatch flow

The model below embeds IQSharpClient._execute together with _handle_message
and _get_qsharp_data.  A dispatch is a function of:
  * the busy flag of the session at entry (self._busy),
  * whether the initial check_status call succeeds,
  * the raise_on_stderr argument,
  * the behavior of kernel_client.execute_interactive, modelled as the finite
    list of messages it feeds to the output hook followed by either a normal
    return or an exception, and
  * the JSON decoding function json.loads, passed in as a parameter.
It returns the outcome visible to the caller together with the value of the
busy flag of the session at the moment control returns. -/

/-- Content of a kernel message, as read by _execute and _get_qsharp_data:
an optional executionPath entry, and the payload strings stored under the
two media-type keys application/x-qsharp-data and application/json. -/
structure Content where
  executionPath : Option Py
  dataQsharp : Option String
  dataJson : Option String

/-- A message delivered to the output hook during execute_interactive. -/
structure Msg where
  msg_type : String
  streamName : String
  streamText : String
  content : Content

/-- Result of the execute_interactive transport call itself. -/
inductive TransportResult where
  | ok
  | exn
deriving Repr, DecidableEq

/-- Behavior of one execute_interactive call: the messages it delivers to the
output hook, in order, and how the call itself ends. -/
structure Transport where
  msgs : List Msg
  result : TransportResult

/-- What a dispatch does as seen by the caller of _execute. -/
inductive ExecOutcome where
  | value (v : Py)
  | iqsharpError (lines : List String)
  | alreadyExecuting
  | transportExn
  | assertionFailure

/-- One step of _handle_message with the handler table installed by _execute:
execute_result and render_execution_path messages are appended to `results`;
display_data messages touch neither accumulator; stream messages on stderr
are appended verbatim to `errors` when raise_on_stderr was requested; every
other message falls through to the display fallback, touching no state. -/
def processMsg (raise_on_stderr : Bool) (st : List Msg × List String) (m : Msg) :
    List Msg × List String :=
  if m.msg_type == "execute_result" || m.msg_type == "render_execution_path" then
    (st.1 ++ [m], st.2)
  else if m.msg_type == "display_data" then st
  else if raise_on_stderr && (m.msg_type == "stream" && m.streamName == "stderr") then
    (st.1, st.2 ++ [m.streamText])
  else st

/-- Embedding of IQSharpClient._get_qsharp_data: prefer the
application/x-qsharp-data payload, fall back to application/json, else None. -/
def get_qsharp_data (c : Content) : Option String :=
  match c.dataQsharp with
  | some s => some s
  | none => c.dataJson

/-- The result-decoding tail of _execute for the single collected message:
an executionPath entry is returned as is; otherwise the media payload is
JSON-decoded and unmapped when present and non-empty (`if qsharp_data:`),
else the outcome is None. -/
def decodeContent (loads : String → Py) (c : Content) : Py :=
  match c.executionPath with
  | some p => p
  | none =>
    match get_qsharp_data c with
    | some s => if s == "" then .none else unmap_tuples (loads s)
    | none => .none

/-- Embedding of IQSharpClient._execute.  Steps, in source order: the guarded
check_status call (failure raises an IQSharpError before the busy flag is
touched); the busy test inside the try block, raising AlreadyExecutingError;
setting busy; the transport call processing each delivered message; the
`finally` clause clearing busy on every path that entered the try block; then
raising IQSharpError when error lines accumulated, and otherwise decoding the
single collected result message (asserting there is exactly one) or returning
None when there is none. -/
def execute (loads : String → Py) (busy0 : Bool) (statusOk : Bool)
    (raise_on_stderr : Bool) (tr : Transport) : ExecOutcome × Bool :=
  if !statusOk then
    (.iqsharpError ["IQ# is not running."], busy0)
  else if busy0 then
    -- the AlreadyExecutingError is raised inside the try block, so the
    -- finally clause still runs and clears the busy flag
    (.alreadyExecuting, false)
  else
    match tr.result with
    | .exn => (.transportExn, false)
    | .ok =>
      let st := tr.msgs.foldl (processMsg raise_on_stderr) ([], [])
      if !st.2.isEmpty then (.iqsharpError st.2, false)
      else
        match st.1 with
        | [] => (.value .none, false)
        | [m] => (.value (decodeContent loads m.content), false)
        | _ => (.assertionFailure, false)

/-- Claim-side description of the error lines: the stderr stream texts of the
delivered messages, in arrival order, verbatim. -/
def stderrLines (msgs : List Msg) : List String :=
  (msgs.filter fun m => m.msg_type == "stream" && m.streamName == "stderr").map
    (fun m => m.streamText)

/-- Claim-side description of the collected terminal-result messages. -/
def terminalMsgs (msgs : List Msg) : List Msg :=
  msgs.filter fun m =>
    m.msg_type == "execute_result" || m.msg_type == "render_execution_path"

/-- The message-processing fold of _execute accumulates exactly the
terminal-result messages and (when raise_on_stderr is set) the stderr lines,
in arrival order. -/
theorem foldl_processMsg (r : Bool) :
    ∀ (msgs : List Msg) (acc : List Msg × List String),
      msgs.foldl (processMsg r) acc =
        (acc.1 ++ terminalMsgs msgs,
         acc.2 ++ (if r then stderrLines msgs else [])) := by
  intro msgs
  induction msgs with
  | nil => intro acc; simp [terminalMsgs, stderrLines]
  | cons m ms ih =>
    intro acc
    rw [List.foldl_cons, ih]
    by_cases h1 : (m.msg_type == "execute_result"
        || m.msg_type == "render_execution_path") = true
    · have h3 : (m.msg_type == "stream" && m.streamName == "stderr") = false := by
        rcases Bool.or_eq_true_iff.mp h1 with h | h <;> simp_all
      simp [processMsg, terminalMsgs, stderrLines, List.filter_cons, h1, h3]
    · simp only [Bool.not_eq_true] at h1
      by_cases h2 : (m.msg_type == "display_data") = true
      · have h3 : (m.msg_type == "stream" && m.streamName == "stderr") = false := by
          simp_all
        simp [processMsg, terminalMsgs, stderrLines, List.filter_cons, h1, h2, h3]
      · simp only [Bool.not_eq_true] at h2
        by_cases h3 : (m.msg_type == "stream" && m.streamName == "stderr") = true
        · cases r <;>
            simp [processMsg, terminalMsgs, stderrLines, List.filter_cons, h1, h2, h3]
        · simp only [Bool.not_eq_true] at h3
          simp [processMsg, terminalMsgs, stderrLines, List.filter_cons, h1, h2, h3]

/-! ## clients/iqsharp.py: display-data handler wiring and capture_diagnostics -/

/-- Where a display_data message ends up. -/
inductive DisplayAction where
  | callerHandler
  | renderer
  | noop
deriving Repr, DecidableEq

/-- The display_data slot of the handler table built by _execute: it first
holds the caller-supplied handler (or a no-op when none was supplied), and is
then overwritten with the IPython pass-through renderer whenever _quiet_ is
false. -/
def displayDataSlot (quiet handlerSupplied : Bool) : DisplayAction :=
  let base : DisplayAction := if handlerSupplied then .callerHandler else .noop
  if !quiet then .renderer else base

/-- The filter_display_data wrapper installed when display_data_callback is
set: the callback sees the message first, and the inner handler slot runs
only when the callback returns a truthy value. -/
def effectiveDisplayAction (quiet handlerSupplied : Bool)
    (callbackInstalled callbackPassed : Bool) : DisplayAction :=
  if callbackInstalled && !callbackPassed then .noop
  else displayDataSlot quiet handlerSupplied

/-- Display payload of a message as read by the capture_diagnostics callback:
the JSON-decoded values stored under the two media-type keys, when each key
is present.  A key that is absent decodes, via the `.get(key, "null")`
default, to the same value as a key holding JSON null. -/
structure DisplayPayload where
  appJson : Option Py
  qsharpData : Option Py

/-- The msg_data expression of the capture_diagnostics callback:
`json.loads(data.get('application/json', "null")) or
 json.loads(data.get('application/x-qsharp-data', "null"))`, then compared
with None.  Python `x or y` yields x when x is truthy and y otherwise. -/
def msgData (p : DisplayPayload) : Option Py :=
  let a := p.appJson.getD .none
  let v := if truthy a then a else p.qsharpData.getD .none
  match v with
  | .none => Option.none
  | w => some w

/-- One invocation of the capture_diagnostics callback: a non-None msg_data
is appended to the captured list and the callback returns the passthrough
flag; otherwise nothing is captured and the callback returns True. -/
def captureStep (passthrough : Bool) (captured : List Py) (p : DisplayPayload) :
    List Py × Bool :=
  match msgData p with
  | some v => (captured ++ [v], passthrough)
  | none => (captured, true)

/-- A display_data message arriving while a capture callback is installed and
_quiet_ is false: the callback runs first, and the message reaches the normal
display sink (the renderer slot) only when the callback returned a truthy
value. -/
def captureDisplay (passthrough : Bool) (captured : List Py) (p : DisplayPayload) :
    List Py × DisplayAction :=
  let step := captureStep passthrough captured p
  (step.1, if step.2 then displayDataSlot false false else .noop)

/-- Embedding of the capture_diagnostics context manager over an abstract
hook type H and body result type A.  The body receives the state with the
new hook installed and returns its result (normal value or exception)
together with the hook state it leaves behind; the finally clause then
restores the saved previous hook unconditionally. -/
def capture_diagnostics {H A : Type} (hook : H) (s0 : Option H)
    (body : Option H → Except Unit A × Option H) : Except Unit A × Option H :=
  let old := s0
  let run := body (some hook)
  (run.1, old)

/-! ## clients/iqsharp.py: is_ready -/

/-- Embedding of IQSharpClient.is_ready: the component_versions status call
either succeeds or raises; an exception is caught and logged and the method
returns None (a bare `return`), while success returns True. -/
def is_ready (statusResult : Except Unit Unit) : Option Bool :=
  match statusResult with
  | .error _ => Option.none
  | .ok _ => some true

/-! ## Claims -/

/-- Claim C1, counterexample: the round trip fails at the concrete 8-tuple
(1, ..., 8).  The encoder nests element 8 under `Rest`, but the decoding loop
of unmap_tuples walks Item1, Item2, ... only and never reads `Rest`, so
decoding the encoding drops the eighth element and does not give back the
original tuple. -/
theorem c1_roundtrip_fails_at_length_8 :
    unmap_tuples (map_tuples (.tuple [.int 1, .int 2, .int 3, .int 4, .int 5,
        .int 6, .int 7, .int 8]))
      = .tuple [.int 1, .int 2, .int 3, .int 4, .int 5, .int 6, .int 7] ∧
    unmap_tuples (map_tuples (.tuple [.int 1, .int 2, .int 3, .int 4, .int 5,
        .int 6, .int 7, .int 8]))
      ≠ .tuple [.int 1, .int 2, .int 3, .int 4, .int 5, .int 6, .int 7, .int 8] := by
  have h : unmap_tuples (map_tuples (.tuple [.int 1, .int 2, .int 3, .int 4, .int 5,
        .int 6, .int 7, .int 8]))
      = .tuple [.int 1, .int 2, .int 3, .int 4, .int 5, .int 6, .int 7] := by
    simp [map_tuples, mapList, chunkTuple, itemEntries, unmap_tuples, isTupleDict,
      tupleMarkerVal, collectItems, List.lookup, itemKey_1, itemKey_2, itemKey_3,
      itemKey_4, itemKey_5, itemKey_6, itemKey_7, itemKey_8]
  exact ⟨h, by rw [h]; simp⟩

/-- Claim C1, amended: decoding the encoding gives back t for every tuple t of
length 0 through 7 whose elements satisfy roundOk (no nested tuple longer
than 7 elements and no nested dict that itself passes the tuple-recognition
test); for longer tuples the decoder ignores the `Rest` sub-tuple and returns
only the first 7 elements. -/
theorem c1_roundtrip_upto_7 (items : List Py) (hlen : items.length ≤ 7)
    (hok : roundOkList items = true) :
    unmap_tuples (map_tuples (.tuple items)) = .tuple items := by
  apply roundTrip
  simp [roundOk, hlen, hok]

/-- Claim C1, witness: the round trip at the concrete 7-tuple (1, ..., 7),
the boundary length. -/
theorem c1_roundtrip_upto_7_witness :
    unmap_tuples (map_tuples (.tuple [.int 1, .int 2, .int 3, .int 4, .int 5,
        .int 6, .int 7]))
      = .tuple [.int 1, .int 2, .int 3, .int 4, .int 5, .int 6, .int 7] :=
  c1_roundtrip_upto_7 _ (by simp) (by simp [roundOkList, roundOk])

/-- Claim C4, counterexample: decoding a tuple-encoding mapping with
non-contiguous ItemK keys (Item1 and Item3 present, Item2 absent) does not
fail: unmap_tuples has no failure path at all (there is no MalformedWireValue
condition anywhere in serialization.py), and it silently returns the
truncated tuple (1,), dropping the value stored under Item3. -/
theorem c4_noncontiguous_decode_truncates :
    unmap_tuples (.dict [("@type", .str "tuple"), ("Item1", .int 1), ("Item3", .int 3)])
      = .tuple [.int 1] := by
  simp [unmap_tuples, isTupleDict, tupleMarkerVal, List.lookup, collectItems,
    itemKey_1, itemKey_2]

/-- Claim C4, amended: for every tuple-encoding mapping, decoding does not
fail; it returns a tuple built from the contiguous ItemK prefix only, so when
Item(j+1) is absent the resulting tuple has at most j elements and every
ItemK key beyond the gap is silently dropped. -/
theorem c4_truncation_bound (kvs : List (String × Py)) (j : Nat)
    (ht : isTupleDict kvs = true)
    (hm : kvs.lookup (itemKey (j + 1)) = Option.none) :
    ∃ vs, unmap_tuples (.dict kvs) = .tuple vs ∧ vs.length ≤ j := by
  rw [unmap_tuples, if_pos ht]
  refine ⟨_, rfl, ?_⟩
  by_contra hlt
  push_neg at hlt
  have h2 := @collectItems_lookup kvs kvs.length 1 j (by omega)
  rw [show 1 + j = j + 1 by omega, hm] at h2
  simp at h2

/-- Claim C4, witness: the truncation bound at the concrete malformed mapping
with Item1 and Item3 but no Item2. -/
theorem c4_truncation_bound_witness :
    ∃ vs, unmap_tuples (.dict [("Item1", .int 1), ("Item3", .int 3)])
        = .tuple vs ∧ vs.length ≤ 1 :=
  c4_truncation_bound _ 1 (by simp [isTupleDict, tupleMarkerVal, List.lookup])
    (by simp [List.lookup, itemKey_2])

/-- Claim C2, code bug: a dispatch attempted while the session is busy fails
immediately with AlreadyExecutingError and is never queued, but the busy test
sits inside the try block of _execute, so the finally clause of the rejected
dispatch sets the busy flag to False even though the first command is still
in flight.  The source comment states the guard exists to stop concurrent
executions from corrupting ZeroMQ message ordering, yet after one rejection
the guard is disarmed: the flag the claim says must remain true is false. -/
theorem c2_rejected_dispatch_clears_busy :
    execute (fun _ => .none) true true false ⟨[], .ok⟩
      = (.alreadyExecuting, false) := rfl

/-- Claim C3, counterexample: a dispatch issued while the session is busy and
the initial check_status call fails is not rejected as AlreadyExecuting (the
status check runs first and raises IQSharpError), and it returns with the
busy flag still true: the not-running exit path never touches the flag. -/
theorem c3_not_running_path_leaves_busy :
    execute (fun _ => .none) true false false ⟨[], .ok⟩
      = (.iqsharpError ["IQ# is not running."], true) ∧
    (execute (fun _ => .none) true false false ⟨[], .ok⟩).1
      ≠ ExecOutcome.alreadyExecuting := by
  refine ⟨rfl, ?_⟩
  intro h
  simp [execute] at h

/-- Helper for C3: once the status check has passed, every exit path of the
dispatch other than the busy rejection returns with the busy flag false. -/
theorem execute_clears_busy (loads : String → Py) (r : Bool) (tr : Transport) :
    (execute loads false true r tr).2 = false := by
  unfold execute
  cases htr : tr.result with
  | exn => simp
  | ok =>
    simp only [Bool.not_true, Bool.false_eq_true, if_false]
    split
    · rfl
    · split <;> rfl

/-- Claim C3, amended: for every dispatch that passes the initial status
check and is not rejected as AlreadyExecuting, the busy flag of the session
is false when control returns to the caller, on every exit path (normal
return, IQSharpError raised from accumulated error lines, or an exception
from the transport call); a dispatch that fails the initial status check
raises IQSharpError before the busy flag is touched, leaving it unchanged. -/
theorem c3_admitted_dispatch_clears_busy (loads : String → Py) (busy0 r : Bool)
    (tr : Transport)
    (h : (execute loads busy0 true r tr).1 ≠ ExecOutcome.alreadyExecuting) :
    (execute loads busy0 true r tr).2 = false := by
  cases busy0 with
  | true => exact absurd rfl h
  | false => exact execute_clears_busy loads r tr

/-- Claim C3, witness: a concrete admitted dispatch with an empty reply
stream returns with the busy flag false. -/
theorem c3_admitted_dispatch_clears_busy_witness :
    (execute (fun _ => Py.none) false true false ⟨[], .ok⟩).1
      ≠ ExecOutcome.alreadyExecuting ∧
    (execute (fun _ => Py.none) false true false ⟨[], .ok⟩).2 = false :=
  ⟨by intro h; simp [execute] at h,
   c3_admitted_dispatch_clears_busy _ _ _ _ (by intro h; simp [execute] at h)⟩

/-- Claim C5: for every dispatch with raise_on_stderr requested whose reply
stream emits stderr lines and then completes, the dispatch raises an
IQSharpError carrying exactly those lines, in arrival order, verbatim. -/
theorem c5_error_lines_verbatim (loads : String → Py) (tr : Transport)
    (hok : tr.result = TransportResult.ok)
    (hne : stderrLines tr.msgs ≠ []) :
    execute loads false true true tr
      = (.iqsharpError (stderrLines tr.msgs), false) := by
  unfold execute
  rw [hok]
  rw [foldl_processMsg]
  have h2 : (stderrLines tr.msgs).isEmpty = false := by
    cases hsl : stderrLines tr.msgs
    · exact absurd hsl hne
    · rfl
  simp [h2]

/-- Claim C5, witness: a stubbed reply stream emitting stderr lines a then b
and completing makes the dispatch fail with IQSharpError carrying exactly
the lines a, b in that order. -/
theorem c5_error_lines_verbatim_witness :
    execute (fun _ => Py.none) false true true
      ⟨[⟨"stream", "stderr", "a", ⟨Option.none, Option.none, Option.none⟩⟩,
        ⟨"stream", "stderr", "b", ⟨Option.none, Option.none, Option.none⟩⟩], .ok⟩
      = (.iqsharpError ["a", "b"], false) := by
  rw [c5_error_lines_verbatim _ _ rfl (by simp [stderrLines])]
  simp [stderrLines]

/-- Claim C6: on every exit path of the capture_diagnostics scope (normal
completion or an exception raised inside the scope, and whatever the body
did to the hook slot), the previously installed display hook, including
None, is restored exactly; nesting a second scope inside a first (so that
the saved previous hook is the hook of the outer scope) restores the hook
of the outer scope when the inner scope exits. -/
theorem c6_hook_restored {H A : Type} (hook h1 h2 : H) (s0 : Option H)
    (body body2 : Option H → Except Unit A × Option H) :
    (capture_diagnostics hook s0 body).2 = s0 ∧
    (capture_diagnostics h2 (some h1) body2).2 = some h1 :=
  ⟨rfl, rfl⟩

/-- Claim C7, counterexample: a display message whose payload carries the
recognized media type application/json, but whose stored JSON value is null,
is not appended to the captured collection and is forwarded to the normal
display sink even with passthrough set to false, because the callback tests
the decoded value against None rather than testing key presence. -/
theorem c7_null_payload_not_captured :
    (DisplayPayload.mk (some Py.none) Option.none).appJson.isSome = true ∧
    captureDisplay false [] ⟨some Py.none, Option.none⟩
      = ([], DisplayAction.renderer) :=
  ⟨rfl, rfl⟩

/-- Claim C7, amended: with passthrough false, every display message whose
payload decodes to a non-None msg_data value (the application/json value
when truthy, else the application/x-qsharp-data value) is appended to the
captured collection and withheld from the normal display sink, while every
display message whose payload decodes to None is forwarded to the display
sink and not captured. -/
theorem c7_capture_isolation (captured : List Py) (p : DisplayPayload) :
    (∀ v, msgData p = some v →
      captureDisplay false captured p = (captured ++ [v], DisplayAction.noop)) ∧
    (msgData p = Option.none →
      captureDisplay false captured p = (captured, DisplayAction.renderer)) := by
  constructor
  · intro v hv
    simp [captureDisplay, captureStep, hv]
  · intro hv
    simp [captureDisplay, captureStep, hv, displayDataSlot]

/-- Claim C7, witness: a payload holding the JSON number 5 under
application/json is captured and withheld from the display sink. -/
theorem c7_capture_isolation_witness :
    captureDisplay false [] ⟨some (Py.int 5), Option.none⟩
      = ([Py.int 5], DisplayAction.noop) :=
  (c7_capture_isolation [] ⟨some (Py.int 5), Option.none⟩).1 (Py.int 5) rfl

/-- Claim C8: for every dispatch whose reply stream completes with no error
lines accumulated, exactly one collected terminal-result message has its
content decoded (executionPath as is, else the payload under either
media-type key unmapped) and returned; no terminal-result message yields the
absent value None, not an error; and more than one yields the assertion
failure. -/
theorem c8_terminal_result_outcome (loads : String → Py) (r : Bool)
    (tr : Transport) (hok : tr.result = TransportResult.ok)
    (herr : (if r then stderrLines tr.msgs else []) = []) :
    execute loads false true r tr
      = (match terminalMsgs tr.msgs with
         | [] => (ExecOutcome.value Py.none, false)
         | [m] => (ExecOutcome.value (decodeContent loads m.content), false)
         | _ => (ExecOutcome.assertionFailure, false)) := by
  unfold execute
  rw [hok]
  rw [foldl_processMsg]
  rw [List.nil_append, List.nil_append, herr]
  simp only [List.isEmpty_nil, Bool.not_true, Bool.false_eq_true, if_false]

/-- Claim C8, witness: a single execute_result message whose payload sits
under application/x-qsharp-data is decoded and returned as the outcome. -/
theorem c8_terminal_result_outcome_witness :
    execute (fun _ => Py.int 42) false true true
      ⟨[⟨"execute_result", "", "", ⟨Option.none, some "42", Option.none⟩⟩], .ok⟩
      = (ExecOutcome.value (Py.int 42), false) := by
  rw [c8_terminal_result_outcome _ _ _ rfl (by simp [stderrLines])]
  simp [terminalMsgs, decodeContent, get_qsharp_data, unmap_tuples]

/-- Claim C9, counterexample: on a failing status command, is_ready returns
None (the bare `return` of the except branch), not the boolean False that
the claim states. -/
theorem c9_failure_yields_none_not_false :
    is_ready (Except.error ()) ≠ some false ∧
    is_ready (Except.error ()) = Option.none :=
  ⟨by simp [is_ready], rfl⟩

/-- Claim C9, amended: is_ready is a total function of the status-command
result, so no exception escapes it; on every failure it returns the falsy
value None (never the boolean False), and on success it returns True. -/
theorem c9_is_ready_never_raises (r : Except Unit Unit) :
    is_ready r ≠ some false ∧
    (∀ e, is_ready (Except.error e) = Option.none) ∧
    (∀ u, is_ready (Except.ok u) = some true) := by
  refine ⟨?_, fun e => rfl, fun u => rfl⟩
  cases r with
  | error e => simp [is_ready]
  | ok u => simp [is_ready]

/-- Claim C10: when _quiet_ is false the display_data handler slot is
overwritten by the pass-through renderer, so a caller-supplied
display_data_handler is never the effective target of any display message
(whatever the display_data_callback does); with _quiet_ true and a handler
supplied, the caller-supplied handler is the effective target. -/
theorem c10_caller_handler_needs_quiet (handlerSupplied cbInstalled cbPassed : Bool) :
    effectiveDisplayAction false handlerSupplied cbInstalled cbPassed
        ≠ DisplayAction.callerHandler ∧
    effectiveDisplayAction true true false cbPassed = DisplayAction.callerHandler := by
  constructor
  · unfold effectiveDisplayAction displayDataSlot
    cases cbInstalled <;> cases cbPassed <;> cases handlerSupplied <;> simp
  · rfl

end IQSharp
